import Mathlib

/-!
Verification of `MeshFunction<T>` (src/kernel/mesh/dolfin/MeshFunction.h).

A `MeshFunction` holds a heap buffer `_values` (null when uninitialized),
a non-owning pointer `_mesh`, a topological dimension `_dim` and a size
`_size`.  We embed the class as a record:

* `_values : T*` becomes `values : Option (List (Option T))`; `none` is the
  null pointer, and each slot is an `Option T` because `new T[size]` leaves
  the elements default-constructed/indeterminate (`none` models a slot never
  written through `set`).  Note `new T[0]` is a non-null pointer, so an
  allocated empty buffer is `some []`, distinct from `none`.
* `_mesh : const Mesh*` becomes `mesh : Option Mesh`; the pointer comparison
  `&entity.mesh() == _mesh` is modelled by comparing mesh identities
  (`Mesh.id` plays the role of the object address, and a `MeshEntity` records
  the identity of its owning mesh).
* `dolfin_assert` / `dolfin_error` halt execution on violated preconditions;
  the fallible operations therefore return `Except MFError _`, with one error
  constructor per distinct failing check, named after the spec's taxonomy.
-/

namespace Dolfin

/-- The external mesh collaborator: an identity (standing for the object's
address, used for pointer comparison) and `size(dim)`, the entity count at a
topological dimension. -/
structure Mesh where
  id : Nat
  entityCount : Nat → Nat

/-- The external entity handle: the identity of its owning mesh
(`entity.mesh()`), its topological dimension (`entity.dim()`) and its index
(`entity.index()`). -/
structure MeshEntity where
  meshId : Nat
  dim : Nat
  index : Nat

/-- One error per distinct fatal precondition check in the source, using the
names of the spec's error taxonomy (§7). -/
inductive MFError where
  | noMeshBound
  | useBeforeInit
  | entityMeshMismatch
  | dimensionMismatch
  | indexOutOfRange
deriving DecidableEq, Repr

/-- State of a `MeshFunction<T>` object: fields `_values`, `_mesh`, `_dim`,
`_size` of the class. -/
structure MeshFunction (T : Type) where
  values : Option (List (Option T))
  mesh : Option Mesh
  dim : Nat
  size : Nat

variable {T : Type}

/-- Embeds the default constructor
`MeshFunction() : _values(0), _mesh(0), _dim(0), _size(0)`. -/
def MeshFunction.empty (T : Type) : MeshFunction T :=
  { values := none, mesh := none, dim := 0, size := 0 }

/-- Embeds the constructor
`MeshFunction(const Mesh& mesh) : _values(0), _mesh(&mesh), _dim(0), _size(0)`. -/
def MeshFunction.onMesh (T : Type) (m : Mesh) : MeshFunction T :=
  { values := none, mesh := some m, dim := 0, size := 0 }

/-- Embeds the pointer comparison `&entity.mesh() == _mesh` (false when
`_mesh` is null, since `entity.mesh()` is a reference to a live object). -/
def MeshFunction.meshMatches (f : MeshFunction T) (e : MeshEntity) : Bool :=
  match f.mesh with
  | none => false
  | some m => m.id == e.meshId

/-- Embeds `init(const Mesh& mesh, uint dim, uint size)`: sets `_mesh`,
`_dim`, `_size` to the arguments, deletes any old buffer and allocates
`new T[size]` (a fresh buffer of `size` indeterminate slots). -/
def MeshFunction.initMeshDimSize (_f : MeshFunction T) (m : Mesh) (d s : Nat) :
    MeshFunction T :=
  { values := some (List.replicate s none), mesh := some m, dim := d, size := s }

/-- Embeds `init(const Mesh& mesh, uint dim)`, which calls
`init(mesh, dim, mesh.size(dim))`. -/
def MeshFunction.initMeshDim (f : MeshFunction T) (m : Mesh) (d : Nat) :
    MeshFunction T :=
  f.initMeshDimSize m d (m.entityCount d)

/-- Embeds `init(uint dim)`: calls `dolfin_error` when `_mesh` is null,
otherwise calls `init(*_mesh, dim, _mesh->size(dim))`. -/
def MeshFunction.initDim (f : MeshFunction T) (d : Nat) :
    Except MFError (MeshFunction T) :=
  match f.mesh with
  | none => .error .noMeshBound
  | some m => .ok (f.initMeshDimSize m d (m.entityCount d))

/-- Embeds `init(uint dim, uint size)`: calls `dolfin_error` when `_mesh` is
null, otherwise calls `init(*_mesh, dim, _mesh->size(dim))` — the `size`
argument is not used by the source body. -/
def MeshFunction.initDimSize (f : MeshFunction T) (d : Nat) (_s : Nat) :
    Except MFError (MeshFunction T) :=
  match f.mesh with
  | none => .error .noMeshBound
  | some m => .ok (f.initMeshDimSize m d (m.entityCount d))

/-- Embeds `T get(const MeshEntity& entity) const`: asserts `_values`, then
`&entity.mesh() == _mesh`, then `entity.dim() == _dim`, then
`entity.index() < _size`, in source order, and returns
`_values[entity.index()]`. -/
def MeshFunction.get (f : MeshFunction T) (e : MeshEntity) :
    Except MFError (Option T) :=
  match f.values with
  | none => .error .useBeforeInit
  | some vals =>
    if f.meshMatches e = false then .error .entityMeshMismatch
    else if e.dim ≠ f.dim then .error .dimensionMismatch
    else if ¬ e.index < f.size then .error .indexOutOfRange
    else .ok (vals.getD e.index none)

/-- Embeds `T& operator() (MeshEntity& entity)` (and its `const` overload):
the same four assertions as `get`, in the same order, returning (a reference
to) `_values[entity.index()]`. -/
def MeshFunction.accessAt (f : MeshFunction T) (e : MeshEntity) :
    Except MFError (Option T) :=
  match f.values with
  | none => .error .useBeforeInit
  | some vals =>
    if f.meshMatches e = false then .error .entityMeshMismatch
    else if e.dim ≠ f.dim then .error .dimensionMismatch
    else if ¬ e.index < f.size then .error .indexOutOfRange
    else .ok (vals.getD e.index none)

/-- Embeds `void set(uint index, const T& value)`: asserts `_values`, then
`index < _size`, then assigns `_values[index] = value`. -/
def MeshFunction.set (f : MeshFunction T) (i : Nat) (v : T) :
    Except MFError (MeshFunction T) :=
  match f.values with
  | none => .error .useBeforeInit
  | some vals =>
    if ¬ i < f.size then .error .indexOutOfRange
    else .ok { f with values := some (vals.set i (some v)) }

/-- Allocation invariant of the class: whenever `_values` is non-null it was
allocated as `new T[_size]`, so the buffer has exactly `_size` slots. -/
def MeshFunction.WF (f : MeshFunction T) : Prop :=
  ∀ vals, f.values = some vals → vals.length = f.size

/-- A concrete mesh used as a test fixture: 5 entities at every dimension. -/
def mesh5 : Mesh :=
  { id := 0, entityCount := fun _ => 5 }

/-- A concrete initialized map on `mesh5` at dimension 1, used as a fixture. -/
def mf5 : MeshFunction Nat :=
  (MeshFunction.empty Nat).initMeshDim mesh5 1

/-- The buffer of `mf5` right after initialization. -/
def mf5vals : List (Option Nat) :=
  List.replicate 5 none

/-- Reading the slot written by `List.set` at an in-range index. -/
theorem getD_set_self (l : List α) (i : Nat) (a d : α) (h : i < l.length) :
    (l.set i a).getD i d = a := by
  simp [List.getD_eq_getElem?_getD, List.getElem?_set_self, h]

/-- Reading any slot of a fresh `List.replicate` buffer whose element equals
the default. -/
theorem getD_replicate_self {α : Type} (n i : Nat) (a : α) :
    (List.replicate n a).getD i a = a := by
  induction n generalizing i with
  | zero => rfl
  | succ k ih =>
    cases i with
    | zero => rfl
    | succ j =>
      have h := ih j
      simp [List.replicate_succ, List.getD] at h ⊢

/-- `List.set` leaves every other slot unchanged. -/
theorem getD_set_ne (l : List α) (i j : Nat) (a d : α) (h : j ≠ i) :
    (l.set i a).getD j d = l.getD j d := by
  simp [List.getD_eq_getElem?_getD, List.getElem?_set_ne (fun hij => h hij.symm)]

end Dolfin

namespace Dolfin

/-- C1 (counterexample): the claim says `init(m, d, requestedSize)` ignores
`requestedSize` and sizes to the mesh's entity count.  On the code,
`init(const Mesh&, uint, uint)` sets `_size = size` directly: with `mesh5`
(5 entities at every dimension) and requested size 7, `size()` is 7, not 5. -/
theorem C1_init3_counterexample :
    ((MeshFunction.empty Nat).initMeshDimSize mesh5 0 7).size ≠
      mesh5.entityCount 0 := by
  decide

/-- C1 (amended): the three-argument overload `init(mesh, dim, size)` sets
`size()` to the requested size; only the no-mesh overloads ignore their size
argument. -/
theorem C1_init3_uses_requested_size (f : MeshFunction T) (m : Mesh) (d s : Nat) :
    (f.initMeshDimSize m d s).size = s :=
  rfl

/-- C2: after `init(m, d)`, `size()` equals `m.entityCountAtDimension(d)`;
and `init(d)` on a map bound to `m` performs exactly `init(m, d)`. -/
theorem C2_init_sizes_to_mesh_count (f : MeshFunction T) (m : Mesh) (d : Nat) :
    (f.initMeshDim m d).size = m.entityCount d ∧
    (f.mesh = some m → f.initDim d = .ok (f.initMeshDim m d)) := by
  refine ⟨rfl, fun h => ?_⟩
  simp [MeshFunction.initDim, h, MeshFunction.initMeshDim]

/-- Witness for C2 at the concrete map `onMesh mesh5` and dimension 1. -/
theorem C2_witness :
    (MeshFunction.onMesh Nat mesh5).mesh = some mesh5 ∧
    (((MeshFunction.onMesh Nat mesh5).initMeshDim mesh5 1).size =
        mesh5.entityCount 1 ∧
      ((MeshFunction.onMesh Nat mesh5).mesh = some mesh5 →
        (MeshFunction.onMesh Nat mesh5).initDim 1 =
          .ok ((MeshFunction.onMesh Nat mesh5).initMeshDim mesh5 1))) :=
  ⟨rfl, C2_init_sizes_to_mesh_count (MeshFunction.onMesh Nat mesh5) mesh5 1⟩

/-- C3: on a mesh with 5 cells, `init(m, d)` gives `size() == 5`; after
`set(3, X)` the entity at index 3 reads back `X`; a second `init(m, d)`
allocates a fresh buffer, so the entity at index 3 no longer reads `X`
(its slot is back to the never-written state). -/
theorem C3_reinit_discards_values (f : MeshFunction Nat) (m : Mesh) (d X : Nat)
    (h5 : m.entityCount d = 5) :
    ∃ f2, (f.initMeshDim m d).set 3 X = .ok f2 ∧
      ((f.initMeshDim m d).size = 5 ∧
       f2.get ⟨m.id, d, 3⟩ = .ok (some X) ∧
       (f2.initMeshDim m d).get ⟨m.id, d, 3⟩ = .ok none ∧
       (f2.initMeshDim m d).get ⟨m.id, d, 3⟩ ≠ .ok (some X)) := by
  refine ⟨{ values := some ((List.replicate 5 (none : Option Nat)).set 3 (some X)),
            mesh := some m, dim := d, size := 5 }, ?_, ?_, ?_, ?_, ?_⟩
  · simp [MeshFunction.initMeshDim, MeshFunction.initMeshDimSize, MeshFunction.set, h5]
  · simp [MeshFunction.initMeshDim, MeshFunction.initMeshDimSize, h5]
  · simp [MeshFunction.get, MeshFunction.meshMatches,
      getD_set_self (List.replicate 5 (none : Option Nat)) 3 (some X) none (by simp)]
  · simp [MeshFunction.initMeshDim, MeshFunction.initMeshDimSize, MeshFunction.get,
      MeshFunction.meshMatches, h5, getD_replicate_self 5 3 (none : Option Nat)]
  · simp [MeshFunction.initMeshDim, MeshFunction.initMeshDimSize, MeshFunction.get,
      MeshFunction.meshMatches, h5, getD_replicate_self 5 3 (none : Option Nat)]

/-- Witness for C3 at the empty map, `mesh5`, dimension 2 and value 42. -/
theorem C3_witness :
    mesh5.entityCount 2 = 5 ∧
    (∃ f2, ((MeshFunction.empty Nat).initMeshDim mesh5 2).set 3 42 = .ok f2 ∧
      (((MeshFunction.empty Nat).initMeshDim mesh5 2).size = 5 ∧
       f2.get ⟨mesh5.id, 2, 3⟩ = .ok (some 42) ∧
       (f2.initMeshDim mesh5 2).get ⟨mesh5.id, 2, 3⟩ = .ok none ∧
       (f2.initMeshDim mesh5 2).get ⟨mesh5.id, 2, 3⟩ ≠ .ok (some 42))) :=
  ⟨rfl, C3_reinit_discards_values (MeshFunction.empty Nat) mesh5 2 42 rfl⟩

/-- C4: on an initialized map, for an entity of the bound mesh and bound
dimension with in-range index, `set(e.index(), v)` succeeds and `get(e)`
then returns `v`. -/
theorem C4_set_get_roundtrip (f : MeshFunction T) (vals : List (Option T))
    (e : MeshEntity) (v : T)
    (hv : f.values = some vals) (hlen : vals.length = f.size)
    (hm : f.meshMatches e = true) (hd : e.dim = f.dim) (hi : e.index < f.size) :
    ∃ f2, f.set e.index v = .ok f2 ∧ f2.get e = .ok (some v) := by
  refine ⟨{ f with values := some (vals.set e.index (some v)) }, ?_, ?_⟩
  · simp [MeshFunction.set, hv, hi]
  · have hm2 : MeshFunction.meshMatches
        { f with values := some (vals.set e.index (some v)) } e = true := hm
    have hset : (vals.set e.index (some v)).getD e.index none = some v :=
      getD_set_self vals e.index (some v) none (by rw [hlen]; exact hi)
    simp only [List.getD_eq_getElem?_getD] at hset
    simp [MeshFunction.get, hm2, hd, hi, hset]

/-- Witness for C4 on the fixture `mf5` at index 2 with value 9. -/
theorem C4_witness :
    mf5.values = some mf5vals ∧ mf5vals.length = mf5.size ∧
    mf5.meshMatches ⟨0, 1, 2⟩ = true ∧ MeshEntity.dim ⟨0, 1, 2⟩ = mf5.dim ∧
    (2 : Nat) < mf5.size ∧
    (∃ f2, mf5.set 2 9 = .ok f2 ∧ f2.get ⟨0, 1, 2⟩ = .ok (some 9)) :=
  ⟨rfl, by decide, by decide, rfl, by decide,
    C4_set_get_roundtrip mf5 mf5vals ⟨0, 1, 2⟩ 9 rfl (by decide) (by decide) rfl
      (by decide)⟩

/-- C5: while the buffer is null — as it is right after either constructor,
before any `init` — `get`, `operator()` and `set` all fail on the
`dolfin_assert(_values)` check (UseBeforeInit), deterministically. -/
theorem C5_access_before_init (f : MeshFunction T) (e : MeshEntity) (i : Nat)
    (v : T) (h : f.values = none) :
    f.get e = .error .useBeforeInit ∧
    f.accessAt e = .error .useBeforeInit ∧
    f.set i v = .error .useBeforeInit ∧
    (MeshFunction.empty T).values = none ∧
    (∀ m : Mesh, (MeshFunction.onMesh T m).values = none) := by
  refine ⟨?_, ?_, ?_, rfl, fun _ => rfl⟩
  · simp [MeshFunction.get, h]
  · simp [MeshFunction.accessAt, h]
  · simp [MeshFunction.set, h]

/-- Witness for C5 at the freshly constructed empty map. -/
theorem C5_witness :
    (MeshFunction.empty Nat).values = none ∧
    ((MeshFunction.empty Nat).get ⟨0, 0, 0⟩ = .error .useBeforeInit ∧
     (MeshFunction.empty Nat).accessAt ⟨0, 0, 0⟩ = .error .useBeforeInit ∧
     (MeshFunction.empty Nat).set 0 0 = .error .useBeforeInit ∧
     (MeshFunction.empty Nat).values = none ∧
     (∀ m : Mesh, (MeshFunction.onMesh Nat m).values = none)) :=
  ⟨rfl, C5_access_before_init (MeshFunction.empty Nat) ⟨0, 0, 0⟩ 0 0 rfl⟩

/-- C6: on an initialized map, `get` and `operator()` check the entity's
owning mesh against `_mesh`, its dimension against `_dim`, and its index
against `_size`, in that order, failing with EntityMeshMismatch,
DimensionMismatch and IndexOutOfRange respectively, and otherwise return the
stored value at the entity's index. -/
theorem C6_get_validates (f : MeshFunction T) (vals : List (Option T))
    (e : MeshEntity) (hv : f.values = some vals) :
    (f.meshMatches e = false →
      f.get e = .error .entityMeshMismatch ∧
      f.accessAt e = .error .entityMeshMismatch) ∧
    (f.meshMatches e = true → e.dim ≠ f.dim →
      f.get e = .error .dimensionMismatch ∧
      f.accessAt e = .error .dimensionMismatch) ∧
    (f.meshMatches e = true → e.dim = f.dim → ¬ e.index < f.size →
      f.get e = .error .indexOutOfRange ∧
      f.accessAt e = .error .indexOutOfRange) ∧
    (f.meshMatches e = true → e.dim = f.dim → e.index < f.size →
      f.get e = .ok (vals.getD e.index none) ∧
      f.accessAt e = .ok (vals.getD e.index none)) := by
  refine ⟨fun h1 => ⟨?_, ?_⟩, fun h1 h2 => ⟨?_, ?_⟩,
    fun h1 h2 h3 => ⟨?_, ?_⟩, fun h1 h2 h3 => ⟨?_, ?_⟩⟩ <;>
    simp [MeshFunction.get, MeshFunction.accessAt, hv, h1, *]

/-- Witness for C6 on the fixture `mf5`: a foreign-mesh entity, a
wrong-dimension entity, an out-of-range entity and a valid entity. -/
theorem C6_witness :
    mf5.values = some mf5vals ∧
    mf5.get ⟨7, 1, 0⟩ = .error .entityMeshMismatch ∧
    mf5.get ⟨0, 2, 0⟩ = .error .dimensionMismatch ∧
    mf5.get ⟨0, 1, 9⟩ = .error .indexOutOfRange ∧
    mf5.get ⟨0, 1, 0⟩ = .ok (mf5vals.getD 0 none) :=
  ⟨rfl,
    ((C6_get_validates mf5 mf5vals ⟨7, 1, 0⟩ rfl).1 (by decide)).1,
    ((C6_get_validates mf5 mf5vals ⟨0, 2, 0⟩ rfl).2.1 (by decide) (by decide)).1,
    ((C6_get_validates mf5 mf5vals ⟨0, 1, 9⟩ rfl).2.2.1 (by decide) (by decide)
      (by decide)).1,
    ((C6_get_validates mf5 mf5vals ⟨0, 1, 0⟩ rfl).2.2.2 (by decide) (by decide)
      (by decide)).1⟩

/-- C7 (counterexample): the claim says `set` fails with IndexOutOfRange when
the map is uninitialized.  On the code, `set` asserts `_values` first: on the
freshly constructed empty map, `set(0, 5)` fails on that check
(UseBeforeInit), not on the index check. -/
theorem C7_counterexample :
    (MeshFunction.empty Nat).set 0 5 = .error .useBeforeInit ∧
    (MeshFunction.empty Nat).set 0 5 ≠ .error .indexOutOfRange := by
  refine ⟨rfl, ?_⟩
  simp [MeshFunction.set, MeshFunction.empty]

/-- C7 (amended): `set(index, value)` validates `index < size`; it fails with
UseBeforeInit when the map is uninitialized, with IndexOutOfRange when
initialized but `index ≥ size()`, and otherwise overwrites exactly the slot
at `index` with `value`. -/
theorem C7_set_behavior (f : MeshFunction T) (i : Nat) (v : T) :
    (f.values = none → f.set i v = .error .useBeforeInit) ∧
    (∀ vals, f.values = some vals → ¬ i < f.size →
      f.set i v = .error .indexOutOfRange) ∧
    (∀ vals, f.values = some vals → i < f.size →
      f.set i v = .ok { f with values := some (vals.set i (some v)) }) := by
  refine ⟨fun h => ?_, fun vals hv hi => ?_, fun vals hv hi => ?_⟩ <;>
    simp [MeshFunction.set, *]

/-- Witness for C7 on the fixture `mf5` at index 2 with value 7. -/
theorem C7_witness :
    mf5.values = some mf5vals ∧ (2 : Nat) < mf5.size ∧
    mf5.set 2 7 = .ok { mf5 with values := some (mf5vals.set 2 (some 7)) } :=
  ⟨rfl, by decide, (C7_set_behavior mf5 2 7).2.2 mf5vals rfl (by decide)⟩

/-- C8: on a map bound to mesh `m`, `init(dim, requestedSize)` performs
`init(m, dim, m.size(dim))`, so the buffer is sized to the mesh's entity
count at `dim`, never to `requestedSize`. -/
theorem C8_initDimSize_ignores_requested (f : MeshFunction T) (m : Mesh)
    (d s : Nat) (h : f.mesh = some m) :
    f.initDimSize d s = .ok (f.initMeshDimSize m d (m.entityCount d)) ∧
    ∀ g, f.initDimSize d s = .ok g → g.size = m.entityCount d := by
  have h1 : f.initDimSize d s = .ok (f.initMeshDimSize m d (m.entityCount d)) := by
    simp [MeshFunction.initDimSize, h]
  refine ⟨h1, fun g hg => ?_⟩
  rw [h1] at hg
  simp only [Except.ok.injEq] at hg
  subst hg
  rfl

/-- Witness for C8 at `onMesh mesh5`, dimension 1, requested size 7 (while
the mesh has 5 entities at dimension 1). -/
theorem C8_witness :
    (MeshFunction.onMesh Nat mesh5).mesh = some mesh5 ∧
    mesh5.entityCount 1 ≠ 7 ∧
    (MeshFunction.onMesh Nat mesh5).initDimSize 1 7 =
      .ok ((MeshFunction.onMesh Nat mesh5).initMeshDimSize mesh5 1
        (mesh5.entityCount 1)) :=
  ⟨rfl, by decide,
    (C8_initDimSize_ignores_requested (MeshFunction.onMesh Nat mesh5) mesh5 1 7
      rfl).1⟩

/-- C9: with no mesh ever associated (`_mesh` null), both `init(dim)` and
`init(dim, requestedSize)` stop at the `dolfin_error` call (NoMesh) and no
state update takes place (no `ok` state is produced). -/
theorem C9_init_requires_mesh (f : MeshFunction T) (d s : Nat)
    (h : f.mesh = none) :
    f.initDim d = .error .noMeshBound ∧
    f.initDimSize d s = .error .noMeshBound := by
  constructor <;> simp [MeshFunction.initDim, MeshFunction.initDimSize, h]

/-- Witness for C9 at the freshly constructed empty map. -/
theorem C9_witness :
    (MeshFunction.empty Nat).mesh = none ∧
    ((MeshFunction.empty Nat).initDim 0 = .error .noMeshBound ∧
     (MeshFunction.empty Nat).initDimSize 0 3 = .error .noMeshBound) :=
  ⟨rfl, C9_init_requires_mesh (MeshFunction.empty Nat) 0 3 rfl⟩

/-- C10: on an initialized map with `i < size()`, `set(i, v)` leaves the
bound mesh, the dimension and the size unchanged, replaces the buffer with
one equal to the old buffer except at slot `i`, and every slot `j ≠ i` reads
the same as before. -/
theorem C10_set_frame (f : MeshFunction T) (vals : List (Option T)) (i : Nat)
    (v : T) (hv : f.values = some vals) (hi : i < f.size) :
    ∃ f2, f.set i v = .ok f2 ∧
      f2.mesh = f.mesh ∧ f2.dim = f.dim ∧ f2.size = f.size ∧
      f2.values = some (vals.set i (some v)) ∧
      ∀ j, j ≠ i → (vals.set i (some v)).getD j none = vals.getD j none := by
  refine ⟨{ f with values := some (vals.set i (some v)) }, ?_, rfl, rfl, rfl, rfl,
    fun j hj => getD_set_ne vals i j (some v) none hj⟩
  simp [MeshFunction.set, hv, hi]

/-- Witness for C10 on the fixture `mf5` at index 1 with value 8. -/
theorem C10_witness :
    mf5.values = some mf5vals ∧ (1 : Nat) < mf5.size ∧
    (∃ f2, mf5.set 1 8 = .ok f2 ∧
      f2.mesh = mf5.mesh ∧ f2.dim = mf5.dim ∧ f2.size = mf5.size ∧
      f2.values = some (mf5vals.set 1 (some 8)) ∧
      ∀ j, j ≠ 1 → (mf5vals.set 1 (some 8)).getD j none = mf5vals.getD j none) :=
  ⟨rfl, by decide, C10_set_frame mf5 mf5vals 1 8 rfl (by decide)⟩

end Dolfin
